import Mathlib

/-!
Shallow embedding of the core of `llm-utils` (files `src/llm_utils/chat.py`
and `src/llm_utils/utils.py`): the gateway (Claude/Bedrock) client with its
conversation normalization, bounded malformed-response retry loop and
response extraction, the direct (OpenAI) client with its unbounded
transient-error retry loop, and the JSON / code-block recovery utilities
`contains_valid_json` and `extract_code_blocks`.

Python strings are modelled as Lean `String`; Python `list` values are Lean
`List`; Python `dict` message parameters are a `Msg` structure; `None` /
raised exceptions are `Option` / explicit result constructors.  JSON values
(the results of `json.loads` and inputs of `json.dumps`) are the inductive
`Json` below; numeric literals are modelled over integers only (none of the
verified properties involve floating-point values, which are out of scope).
-/

/-- The characters Python `str.rstrip()` / `str.strip()` remove by default
(ASCII whitespace; the rarely used further unicode whitespace is outside the
inputs considered). -/
def isPySpace (c : Char) : Bool :=
  c = ' ' ∨ c = '\t' ∨ c = '\n' ∨ c = '\r' ∨ c = Char.ofNat 11 ∨ c = Char.ofNat 12

/-- Python `str.rstrip()`: drop trailing whitespace. -/
def pyRstrip (s : String) : String :=
  String.mk ((s.toList.reverse.dropWhile isPySpace).reverse)

/-- Python `str.strip()`: drop leading and trailing whitespace. -/
def pyStrip (s : String) : String :=
  String.mk (((s.toList.dropWhile isPySpace).reverse.dropWhile isPySpace).reverse)

/-- Python `str.find(ch)` restricted to a single character needle: index of
the first occurrence, `none` for the source value `-1`. -/
def pyFindAux (c : Char) : List Char → Nat → Option Nat
  | [], _ => none
  | x :: xs, i => if x = c then some i else pyFindAux c xs (i + 1)

def pyFind (s : String) (c : Char) : Option Nat :=
  pyFindAux c s.toList 0

/-- Python `str.rfind(ch)` for a single character: index of the last
occurrence, `none` for `-1`. -/
def pyRfindAux (c : Char) : List Char → Nat → Option Nat → Option Nat
  | [], _, acc => acc
  | x :: xs, i, acc => pyRfindAux c xs (i + 1) (if x = c then some i else acc)

def pyRfind (s : String) (c : Char) : Option Nat :=
  pyRfindAux c s.toList 0 none

/-- Python slice `s[a:b]` (with `0 ≤ a ≤ b` the only case exercised;
an empty string results when `a ≥ b`, as in Python). -/
def pySlice (s : String) (a b : Nat) : String :=
  String.mk ((s.toList.take b).drop a)

/-- A provider message dictionary (`ClaudeMessageParam`): a `role` key
(the literal tags are "Human" and "Assistant") and a `content` key. -/
structure Msg where
  role : String
  content : String
deriving Repr, DecidableEq

/-- The state of the caller's conversation list object after
`Claude.send_message` has run its normalization prelude
(`chat.py` lines 160-165).  The Python code mutates the list in place:
`conversation.pop(0)` removes the first element, and
`conversation[0]["content"] = first_msg.rstrip() + "\n" + conversation[0]["content"]`
rewrites the content of the (new) first element.  On an empty list `pop`
raises before mutating; on a singleton `pop` succeeds (leaving the list
empty) and the index assignment then raises. -/
def convAfterSend : List Msg → List Msg
  | [] => []
  | [_] => []
  | m1 :: m2 :: rest => ⟨m2.role, pyRstrip m1.content ++ "\n" ++ m2.content⟩ :: rest

/-- The normalized conversation `Claude.send_message` builds its payload
from, `none` when the `IndexError` of `pop` / item assignment is raised
(fewer than two messages). -/
def normalizeConv : List Msg → Option (List Msg)
  | m1 :: m2 :: rest =>
      some (⟨m2.role, pyRstrip m1.content ++ "\n" ++ m2.content⟩ :: rest)
  | _ => none

/-- `Claude.generate_chatlog`: render the conversation as
"role: content\n\n" blocks, strip the trailing newlines, and append the
assistant cue. -/
def generate_chatlog (conv : List Msg) : String :=
  pyRstrip (String.join (conv.map fun m => m.role ++ ": " ++ m.content ++ "\n\n"))
    ++ "\n\nAssistant: "

/-- JSON values, the results of `json.loads` and inputs of `json.dumps`.
Numeric literals are modelled over integers; none of the verified
properties involve floating-point values (out of scope). -/
inductive Json where
  | null
  | bool (b : Bool)
  | num (n : Int)
  | str (s : String)
  | arr (elems : List Json)
  | obj (entries : List (String × Json))
deriving Repr

/-- Lowercase hexadecimal digit, as used by the `\uXXXX` escapes of
`json.dumps` with its default `ensure_ascii=True`. -/
def hexDigit (n : Nat) : Char :=
  if n < 10 then Char.ofNat (48 + n) else Char.ofNat (87 + n)

def hex4 (n : Nat) : String :=
  String.mk [hexDigit (n / 4096 % 16), hexDigit (n / 256 % 16),
             hexDigit (n / 16 % 16), hexDigit (n % 16)]

/-- Escape one character the way `json.dumps` (default `ensure_ascii=True`)
does inside a string literal: the two-character escapes for the common
controls, `\u00xx` for other controls, the character itself for printable
ASCII, and `\uxxxx` (with surrogate pairs beyond the BMP) for non-ASCII. -/
def escSingle (c : Char) : String :=
  if c = '"' then "\\\""
  else if c = '\\' then "\\\\"
  else if c = '\n' then "\\n"
  else if c = '\r' then "\\r"
  else if c = '\t' then "\\t"
  else if c = Char.ofNat 8 then "\\b"
  else if c = Char.ofNat 12 then "\\f"
  else if c.toNat < 32 ∨ c.toNat ≥ 127 then
    if c.toNat < 65536 then "\\u" ++ hex4 c.toNat
    else
      "\\u" ++ hex4 (55296 + (c.toNat - 65536) / 1024) ++
      "\\u" ++ hex4 (56320 + (c.toNat - 65536) % 1024)
  else String.mk [c]

/-- `json.dumps` of a Python string. -/
def jsonQuote (s : String) : String :=
  "\"" ++ String.join (s.toList.map escSingle) ++ "\""

mutual

/-- `json.dumps` with its default arguments (item separator ", ",
key separator ": ", `ensure_ascii=True`). -/
def dumpJson : Json → String
  | .null => "null"
  | .bool true => "true"
  | .bool false => "false"
  | .num n => toString n
  | .str s => jsonQuote s
  | .arr xs => "[" ++ dumpJsonList xs ++ "]"
  | .obj kvs => "\x7b" ++ dumpJsonObj kvs ++ "\x7d"

def dumpJsonList : List Json → String
  | [] => ""
  | [x] => dumpJson x
  | x :: y :: xs => dumpJson x ++ ", " ++ dumpJsonList (y :: xs)

def dumpJsonObj : List (String × Json) → String
  | [] => ""
  | [kv] => jsonQuote kv.1 ++ ": " ++ dumpJson kv.2
  | kv :: kv2 :: kvs => jsonQuote kv.1 ++ ": " ++ dumpJson kv.2 ++ ", " ++ dumpJsonObj (kv2 :: kvs)

end

/-- The whitespace characters the Python JSON decoder skips between
tokens. -/
def isJsonWs (c : Char) : Bool :=
  c = ' ' ∨ c = '\t' ∨ c = '\n' ∨ c = '\r'

def skipWs (l : List Char) : List Char :=
  l.dropWhile isJsonWs

def parseHexDigit (c : Char) : Option Nat :=
  if 48 ≤ c.toNat ∧ c.toNat ≤ 57 then some (c.toNat - 48)
  else if 97 ≤ c.toNat ∧ c.toNat ≤ 102 then some (c.toNat - 87)
  else if 65 ≤ c.toNat ∧ c.toNat ≤ 70 then some (c.toNat - 55)
  else none

/-- Four hex digits of a `\uXXXX` escape. -/
def parseHex4 : List Char → Option (Nat × List Char)
  | c1 :: c2 :: c3 :: c4 :: rest =>
    match parseHexDigit c1, parseHexDigit c2, parseHexDigit c3, parseHexDigit c4 with
    | some h1, some h2, some h3, some h4 =>
        some (h1 * 4096 + h2 * 256 + h3 * 16 + h4, rest)
    | _, _, _, _ => none
  | _ => none

/-- The body of a JSON string literal after its opening quote, as read by
the Python decoder with `strict=False` (raw control characters inside the
literal are accepted).  Surrogate pairs in `\u` escapes are combined; a
lone surrogate (which Python would keep as a surrogate code unit) has no
Lean `Char` counterpart and is rejected — no verified property involves
one. -/
def parseStringBody : Nat → List Char → List Char → Option (String × List Char)
  | 0, _, _ => none
  | _ + 1, acc, '"' :: rest => some (String.mk acc.reverse, rest)
  | fuel + 1, acc, '\\' :: e :: rest =>
    if e = '"' then parseStringBody fuel ('"' :: acc) rest
    else if e = '\\' then parseStringBody fuel ('\\' :: acc) rest
    else if e = '/' then parseStringBody fuel ('/' :: acc) rest
    else if e = 'b' then parseStringBody fuel (Char.ofNat 8 :: acc) rest
    else if e = 'f' then parseStringBody fuel (Char.ofNat 12 :: acc) rest
    else if e = 'n' then parseStringBody fuel ('\n' :: acc) rest
    else if e = 'r' then parseStringBody fuel ('\r' :: acc) rest
    else if e = 't' then parseStringBody fuel ('\t' :: acc) rest
    else if e = 'u' then
      match parseHex4 rest with
      | some (h1, rest1) =>
        if h1 < 55296 ∨ 57343 < h1 then
          parseStringBody fuel (Char.ofNat h1 :: acc) rest1
        else if h1 < 56320 then
          match rest1 with
          | '\\' :: 'u' :: rest2 =>
            match parseHex4 rest2 with
            | some (h2, rest3) =>
              if 56320 ≤ h2 ∧ h2 ≤ 57343 then
                parseStringBody fuel
                  (Char.ofNat (65536 + (h1 - 55296) * 1024 + (h2 - 56320)) :: acc) rest3
              else none
            | none => none
          | _ => none
        else none
      | none => none
    else none
  | fuel + 1, acc, c :: rest => parseStringBody fuel (c :: acc) rest
  | _, _, [] => none

/-- A JSON integer literal: optional sign, then `0` or a nonzero digit
followed by further digits (the decoder's number regex; a longer match
with a fraction or exponent would be a float, which is out of the
modelled fragment, so such input is rejected rather than misread). -/
def digitsToNat (acc : Nat) : List Char → Nat
  | [] => acc
  | c :: cs => digitsToNat (acc * 10 + (c.toNat - 48)) cs

def parseDigits (l : List Char) : Option (Nat × List Char) :=
  match l with
  | c :: rest =>
    if c = '0' then some (0, rest)
    else if c.isDigit then
      some (digitsToNat (c.toNat - 48) (rest.takeWhile Char.isDigit),
            rest.dropWhile Char.isDigit)
    else none
  | [] => none

def parseNumber (l : List Char) : Option (Json × List Char) :=
  match l with
  | '-' :: rest =>
    match parseDigits rest with
    | some (n, rest1) =>
      match rest1 with
      | c :: _ => if c = '.' ∨ c = 'e' ∨ c = 'E' then none else some (Json.num (-(n : Int)), rest1)
      | [] => some (Json.num (-(n : Int)), rest1)
    | none => none
  | _ =>
    match parseDigits l with
    | some (n, rest1) =>
      match rest1 with
      | c :: _ => if c = '.' ∨ c = 'e' ∨ c = 'E' then none else some (Json.num (n : Int), rest1)
      | [] => some (Json.num (n : Int), rest1)
    | none => none

/-- Duplicate-key behaviour of the decoder's dict building: a repeated key
keeps its first position and takes the last value, as in `d[k] = v`. -/
def insertKey : List (String × Json) → String → Json → List (String × Json)
  | [], k, v => [(k, v)]
  | kv :: rest, k, v =>
    if kv.1 = k then (kv.1, v) :: rest else kv :: insertKey rest k v

mutual

/-- One JSON value starting at the head of the input (whitespace already
skipped), returning the remaining input.  Fuel decreases on every
recursive call; the top-level entry point supplies far more fuel than the
number of calls any input of its length can trigger, so fuel never binds.
`NaN`/`Infinity` constants (floats) are outside the modelled fragment. -/
def parseValue : Nat → List Char → Option (Json × List Char)
  | 0, _ => none
  | _ + 1, [] => none
  | fuel + 1, c :: rest =>
    if c = '"' then
      match parseStringBody fuel [] rest with
      | some (s, rest1) => some (Json.str s, rest1)
      | none => none
    else if c = '\x7b' then parseObjBody fuel rest
    else if c = '[' then parseArrBody fuel rest
    else if c = 't' then
      match rest with
      | 'r' :: 'u' :: 'e' :: rest1 => some (Json.bool true, rest1)
      | _ => none
    else if c = 'f' then
      match rest with
      | 'a' :: 'l' :: 's' :: 'e' :: rest1 => some (Json.bool false, rest1)
      | _ => none
    else if c = 'n' then
      match rest with
      | 'u' :: 'l' :: 'l' :: rest1 => some (Json.null, rest1)
      | _ => none
    else if c = '-' ∨ c.isDigit then parseNumber (c :: rest)
    else none

/-- Object body after the opening brace. -/
def parseObjBody : Nat → List Char → Option (Json × List Char)
  | 0, _ => none
  | fuel + 1, l =>
    match skipWs l with
    | '\x7d' :: rest => some (Json.obj [], rest)
    | l1 => parseMembers fuel [] l1

def parseMembers : Nat → List (String × Json) → List Char → Option (Json × List Char)
  | 0, _, _ => none
  | fuel + 1, acc, l =>
    match l with
    | '"' :: rest =>
      match parseStringBody fuel [] rest with
      | some (k, rest1) =>
        match skipWs rest1 with
        | ':' :: rest2 =>
          match parseValue fuel (skipWs rest2) with
          | some (v, rest3) =>
            match skipWs rest3 with
            | ',' :: rest4 => parseMembers fuel (insertKey acc k v) (skipWs rest4)
            | '\x7d' :: rest4 => some (Json.obj (insertKey acc k v), rest4)
            | _ => none
          | none => none
        | _ => none
      | none => none
    | _ => none

/-- Array body after the opening bracket. -/
def parseArrBody : Nat → List Char → Option (Json × List Char)
  | 0, _ => none
  | fuel + 1, l =>
    match skipWs l with
    | ']' :: rest => some (Json.arr [], rest)
    | l1 => parseElems fuel [] l1

def parseElems : Nat → List Json → List Char → Option (Json × List Char)
  | 0, _, _ => none
  | fuel + 1, acc, l =>
    match parseValue fuel l with
    | some (v, rest1) =>
      match skipWs rest1 with
      | ',' :: rest2 => parseElems fuel (acc ++ [v]) (skipWs rest2)
      | ']' :: rest2 => some (Json.arr (acc ++ [v]), rest2)
      | _ => none
    | none => none

end

/-- `json.loads(s, strict=False)` restricted to the modelled fragment:
skip leading whitespace, read one value, skip trailing whitespace, and
require the input to be exhausted ("Extra data" otherwise). -/
def jsonParse (s : String) : Option Json :=
  match parseValue (8 * s.length + 16) (skipWs s.toList) with
  | some (j, rest) => if skipWs rest = [] then some j else none
  | none => none

/-- Content up to the first occurrence of three consecutive double quotes,
with the remainder after them (the non-greedy `(.*?)` of the pattern). -/
def splitAtTripleQuote : Nat → List Char → Option (List Char × List Char)
  | 0, _ => none
  | _ + 1, [] => none
  | _ + 1, '"' :: '"' :: '"' :: rest => some ([], rest)
  | fuel + 1, c :: cs =>
    match splitAtTripleQuote fuel cs with
    | some (a, b) => some (c :: a, b)
    | none => none

/-- One pass of `re.sub` with pattern `"""(.*?)"""` (DOTALL), replacing
every match with `json.dumps` of its group: the regex engine scans left to
right, replaces each non-overlapping match, and on a failed match at a
position advances by one character. -/
def replTQAux : Nat → List Char → List Char
  | 0, l => l
  | _ + 1, [] => []
  | fuel + 1, '"' :: '"' :: '"' :: rest =>
    match splitAtTripleQuote (rest.length + 1) rest with
    | some (content, rest2) => (jsonQuote (String.mk content)).toList ++ replTQAux fuel rest2
    | none => '"' :: replTQAux fuel ('"' :: '"' :: rest)
  | fuel + 1, c :: cs => c :: replTQAux fuel cs

def replaceTripleQuoted (s : String) : String :=
  String.mk (replTQAux (s.length + 1) s.toList)

/-- `utils.contains_valid_json`: slice from the first brace to the last
brace, repair triple-quoted spans, and parse; `none` both when a brace is
missing (`find` returns `-1`) and when parsing fails. -/
def contains_valid_json (my_string : String) : Option Json :=
  match pyFind my_string '\x7b', pyRfind my_string '\x7d' with
  | some start_pos, some last_pos =>
      jsonParse (replaceTripleQuoted (pySlice my_string start_pos (last_pos + 1)))
  | _, _ => none

/-- The backtick character (spelled by code point). -/
def btick : Char := Char.ofNat 96

/-- Content up to the first occurrence of three consecutive backticks,
with the remainder after them. -/
def splitAtTripleBacktick : Nat → List Char → Option (List Char × List Char)
  | 0, _ => none
  | _ + 1, [] => none
  | fuel + 1, c :: cs =>
    if c = btick ∧ cs.take 2 = [btick, btick] then some ([], cs.drop 2)
    else
      match splitAtTripleBacktick fuel cs with
      | some (a, b) => some (c :: a, b)
      | none => none

/-- The attempt to complete a match of the pattern after an
opening triple backtick: the greedy optional `(python)?` group is tried
first, backtracking to the untagged reading when no closing fence follows
it.  Returns the content group and the remainder after the closing
fence. -/
def tbMatch (rest : List Char) : Option (List Char × List Char) :=
  if rest.take 6 = "python".toList then
    match splitAtTripleBacktick (rest.length + 1) (rest.drop 6) with
    | some r => some r
    | none => splitAtTripleBacktick (rest.length + 1) rest
  else splitAtTripleBacktick (rest.length + 1) rest

/-- `re.findall` over the code-fence pattern (DOTALL), keeping the second
group of each non-overlapping match stripped of surrounding whitespace —
the body of `utils.extract_code_blocks`. -/
def findBlocksAux : Nat → List Char → List String
  | 0, _ => []
  | _ + 1, [] => []
  | fuel + 1, c :: cs =>
    if c = btick ∧ cs.take 2 = [btick, btick] then
      match tbMatch (cs.drop 2) with
      | some (content, rest2) => pyStrip (String.mk content) :: findBlocksAux fuel rest2
      | none => findBlocksAux fuel cs
    else findBlocksAux fuel cs

def extract_code_blocks (text : String) : List String :=
  findBlocksAux (text.length + 1) text.toList

/-- Python substring membership `needle in haystack` on strings. -/
def hasSubstring (needle : List Char) : List Char → Bool
  | [] => needle.isEmpty
  | c :: cs => needle.isPrefixOf (c :: cs) || hasSubstring needle cs

/-- First lookup of a key in the (duplicate-free, insertion-ordered)
entries of a parsed object: both the membership test
`"responses" in jsonified_completion` and the subsequent indexing. -/
def lookupKey : List (String × Json) → String → Option Json
  | [], _ => none
  | kv :: rest, k => if kv.1 = k then some kv.2 else lookupKey rest k

/-- Python iteration over the value at the "responses" key, as consumed by
the list comprehension `[json.dumps(s) for s in ...]`: a list yields its
elements, a string its characters (one-character strings), a dict its
keys; iterating a number, boolean or `None` raises `TypeError`. -/
def pyIterElems : Json → Option (List Json)
  | .arr xs => some xs
  | .str s => some (s.toList.map fun c => Json.str (String.mk [c]))
  | .obj kvs => some (kvs.map fun kv => Json.str kv.1)
  | _ => none

/-- Outcome of one attempt body of `Claude.send_message`
(`chat.py` lines 171-184) on the `completion` text of a gateway
response: `ok` when the attempt returns a completion list, `noMatch` when
neither extraction strategy fires and the loop re-attempts, `raised` for
the `TypeError` paths Python would take on non-dict membership tests or
non-iterable "responses" values. -/
inductive ExtractRes where
  | ok (completions : List String)
  | noMatch
  | raised
deriving Repr, DecidableEq

def extractFromCompletion (completion : String) : ExtractRes :=
  match contains_valid_json completion with
  | some (Json.obj kvs) =>
      match lookupKey kvs "responses" with
      | some v =>
          match pyIterElems v with
          | some elems => .ok (elems.map dumpJson)
          | none => .raised
      | none => .ok [dumpJson (Json.obj kvs)]
  | some (Json.arr xs) =>
      -- membership in a list compares elements; a hit would then make the
      -- string indexing raise
      if xs.any (fun j => match j with | .str s => s = "responses" | _ => false)
      then .raised else .ok [dumpJson (Json.arr xs)]
  | some (Json.str s) =>
      -- membership in a string is a substring test; a hit would then make
      -- the string indexing raise
      if hasSubstring ("responses".toList) s.toList
      then .raised else .ok [dumpJson (Json.str s)]
  | some _ => .raised
  | none =>
      let code_blocks := extract_code_blocks completion
      if code_blocks.length = 2 then
        .ok [dumpJson (Json.obj
          [("snippet1", Json.str (code_blocks.getD 0 "")),
           ("snippet2", Json.str (code_blocks.getD 1 ""))])]
      else .noMatch

/-- The fixed-parameter request body of `Claude.create_payload`. -/
structure Payload where
  prompt : String
  max_tokens_to_sample : Nat
  temperature : Nat
  top_k : Nat
  top_p : Nat
  stop_seqs : List String
  anthropic_version : String
deriving Repr, DecidableEq

def create_payload (conversation : List Msg) : Payload :=
  ⟨generate_chatlog conversation, 2048, 0, 250, 1, ["\n\nHuman:"], "bedrock-2023-05-31"⟩

/-- Python exceptions `Claude.send_message` can raise in the modelled
fragment. -/
inductive PyErr where
  | indexError
  | typeError
deriving Repr, DecidableEq

/-- What `Claude.send_message` communicates to its caller. -/
inductive SendRes where
  | completions (xs : List String)
  | noResult
  | raised (e : PyErr)
deriving Repr, DecidableEq

/-- Result of a `Claude.send_message` call: the value or exception, the
number of `log.error` calls, the number of `get_inference` calls, and the
payload built (`none` when normalization raised first). -/
structure SendOutcome where
  res : SendRes
  errorLogs : Nat
  inferenceCalls : Nat
  payloadBuilt : Option Payload
deriving Repr, DecidableEq

/-- The `for _ in range(cls.MAX_RETRY)` loop of `Claude.send_message`:
`oracle i` is the `completion` field of the gateway response to the i-th
`get_inference` call (the runs modelled are those in which every request
comes back as a 200 response).  Falling out of the loop logs one error
and returns `None`. -/
def claudeLoop (oracle : Nat → String) : Nat → Nat → SendRes × Nat × Nat
  | 0, i => (.noResult, 1, i)
  | remaining + 1, i =>
    match extractFromCompletion (oracle i) with
    | .ok xs => (.completions xs, 0, i + 1)
    | .raised => (.raised .typeError, 0, i + 1)
    | .noMatch => claudeLoop oracle remaining (i + 1)

/-- `Claude.send_message` with the class attribute `MAX_RETRY` passed
explicitly. -/
def claude_send_message (maxRetry : Nat) (conversation : List Msg)
    (oracle : Nat → String) : SendOutcome :=
  match normalizeConv conversation with
  | none => ⟨.raised .indexError, 0, 0, none⟩
  | some conv2 =>
      let t := claudeLoop oracle maxRetry 0
      ⟨t.1, t.2.1, t.2.2, some (create_payload conv2)⟩

/-- The class-attribute default `Claude.MAX_RETRY: int = 5`. -/
def Claude_MAX_RETRY : Nat := 5

/-- The client values `get_model_from_str` can return; the gateway client
carries the max-retry count the factory wrote into the class attribute. -/
inductive ModelClient where
  | chatGPT
  | claude (maxRetry : Nat)
deriving Repr, DecidableEq

/-- Python `str.lower()` (ASCII range; the recognized provider names are
ASCII). -/
def pyLowerChar (c : Char) : Char :=
  if 65 ≤ c.toNat ∧ c.toNat ≤ 90 then Char.ofNat (c.toNat + 32) else c

def pyLower (s : String) : String :=
  String.mk (s.toList.map pyLowerChar)

/-- `chat.get_model_from_str`. -/
def get_model_from_str (model_name : String) (llm_malformed_max_retry : Nat) :
    Option ModelClient :=
  match pyLower model_name with
  | "openai" => some ModelClient.chatGPT
  | "claude" => some (ModelClient.claude llm_malformed_max_retry)
  | _ => none

/-- Outcome of one provider call inside `ChatGPT.send_message`: the
response (list of `choices[].message.content`, `none` for a missing
content) or one of the caught exception classes — `RateLimitError`,
`APITimeoutError`, or the generic group
`(APIError, BadRequestError, APIConnectionError)`. -/
inductive GPTOutcome where
  | success (contents : List (Option String))
  | rateLimit
  | timeout
  | apiError
deriving Repr, DecidableEq

/-- The list comprehension of `ChatGPT.send_message`
(`chat.py` lines 92-96): keep `resp.message.content` exactly when it
`is not None`. -/
def chatgpt_extract : List (Option String) → List String
  | [] => []
  | some s :: rest => s :: chatgpt_extract rest
  | none :: rest => chatgpt_extract rest

/-- The `sleep` argument of the handler for each caught class: 1 second
for rate limit and timeout, 5 seconds for the generic group. -/
def sleepSecs : GPTOutcome → Nat
  | .rateLimit => 1
  | .timeout => 1
  | _ => 5

/-- The `while True` retry loop of `ChatGPT.send_message`, with fuel
standing in for observation length: `none` means the loop was still
running after `fuel` attempts.  On the first success it returns the
filtered completion list together with the backoff sleeps performed, in
order. -/
def gptLoop (oracle : Nat → GPTOutcome) : Nat → Nat → Option (List String × List Nat)
  | 0, _ => none
  | fuel + 1, i =>
    match oracle i with
    | .success contents => some (chatgpt_extract contents, [])
    | o =>
      match gptLoop oracle fuel (i + 1) with
      | some r => some (r.1, sleepSecs o :: r.2)
      | none => none

def gptIsSuccess : GPTOutcome → Bool
  | .success _ => true
  | _ => false

/-! ## Helper lemmas -/

theorem pyFindAux_eq_none (c : Char) (l : List Char) (h : c ∉ l) :
    ∀ i, pyFindAux c l i = none := by
  induction l with
  | nil => intro _; rfl
  | cons x xs ih =>
      intro i
      simp only [List.mem_cons, not_or] at h
      simp only [pyFindAux]
      rw [if_neg fun hx => h.1 hx.symm]
      exact ih h.2 (i + 1)

theorem pyRfindAux_eq_acc (c : Char) (l : List Char) (h : c ∉ l) :
    ∀ i acc, pyRfindAux c l i acc = acc := by
  induction l with
  | nil => intro _ _; rfl
  | cons x xs ih =>
      intro i acc
      simp only [List.mem_cons, not_or] at h
      simp only [pyRfindAux]
      rw [if_neg fun hx => h.1 hx.symm]
      exact ih h.2 _ _

theorem claudeLoop_exhausted (oracle : Nat → String) :
    ∀ n i, (∀ j, j < n → extractFromCompletion (oracle (i + j)) = .noMatch) →
      claudeLoop oracle n i = (.noResult, 1, i + n) := by
  intro n
  induction n with
  | zero => intro i _; rfl
  | succ m ih =>
      intro i h
      have h0 : extractFromCompletion (oracle i) = .noMatch := by
        simpa using h 0 (Nat.succ_pos m)
      have hrec := ih (i + 1) fun j hj => by
        have := h (j + 1) (by omega)
        rwa [show i + (j + 1) = i + 1 + j by omega] at this
      simp only [claudeLoop, h0, hrec]
      rw [show i + 1 + m = i + (m + 1) by omega]

theorem gptLoop_shift (oracle : Nat → GPTOutcome) :
    ∀ fuel i, gptLoop oracle fuel (i + 1) = gptLoop (fun j => oracle (j + 1)) fuel i := by
  intro fuel
  induction fuel with
  | zero => intro i; rfl
  | succ f ih =>
      intro i
      simp only [gptLoop]
      cases oracle (i + 1) <;> simp only [ih (i + 1)]

theorem gptLoop_first_success :
    ∀ (k : Nat) (oracle : Nat → GPTOutcome) (contents : List (Option String)) (fuel : Nat),
      (∀ j, j < k → gptIsSuccess (oracle j) = false) →
      oracle k = .success contents →
      k < fuel →
      gptLoop oracle fuel 0 =
        some (chatgpt_extract contents,
              (List.range k).map fun j => sleepSecs (oracle j)) := by
  intro k
  induction k with
  | zero =>
      intro oracle contents fuel _ hs hf
      match fuel, hf with
      | f + 1, _ => simp [gptLoop, hs]
  | succ m ih =>
      intro oracle contents fuel hfail hs hf
      match fuel, hf with
      | f + 1, hf =>
        have h0 : gptIsSuccess (oracle 0) = false := hfail 0 (Nat.succ_pos m)
        have hrec := ih (fun j => oracle (j + 1)) contents f
          (fun j hj => hfail (j + 1) (by omega)) hs (by omega)
        have hsh : gptLoop oracle f 1 =
            some (chatgpt_extract contents,
                  (List.range m).map fun j => sleepSecs (oracle (j + 1))) := by
          rw [show (1 : Nat) = 0 + 1 from rfl, gptLoop_shift oracle f 0, hrec]
        cases ho : oracle 0 with
        | success cs => rw [ho] at h0; simp [gptIsSuccess] at h0
        | rateLimit =>
            simp only [gptLoop, ho, hsh]
            rw [List.range_succ_eq_map, List.map_cons, List.map_map]
            simp [ho, Function.comp_def]
        | timeout =>
            simp only [gptLoop, ho, hsh]
            rw [List.range_succ_eq_map, List.map_cons, List.map_map]
            simp [ho, Function.comp_def]
        | apiError =>
            simp only [gptLoop, ho, hsh]
            rw [List.range_succ_eq_map, List.map_cons, List.map_map]
            simp [ho, Function.comp_def]

theorem gptLoop_success_of_some (oracle : Nat → GPTOutcome) :
    ∀ fuel i r, gptLoop oracle fuel i = some r →
      ∃ j contents, i ≤ j ∧ oracle j = .success contents := by
  intro fuel
  induction fuel with
  | zero => intro i r h; exact absurd h (by simp [gptLoop])
  | succ f ih =>
      intro i r h
      cases ho : oracle i with
      | success cs => exact ⟨i, cs, Nat.le_refl i, ho⟩
      | rateLimit =>
          simp only [gptLoop, ho] at h
          cases hrec : gptLoop oracle f (i + 1) with
          | none => rw [hrec] at h; exact absurd h (by simp)
          | some r2 =>
              obtain ⟨j, cs, hj, hjs⟩ := ih (i + 1) r2 hrec
              exact ⟨j, cs, by omega, hjs⟩
      | timeout =>
          simp only [gptLoop, ho] at h
          cases hrec : gptLoop oracle f (i + 1) with
          | none => rw [hrec] at h; exact absurd h (by simp)
          | some r2 =>
              obtain ⟨j, cs, hj, hjs⟩ := ih (i + 1) r2 hrec
              exact ⟨j, cs, by omega, hjs⟩
      | apiError =>
          simp only [gptLoop, ho] at h
          cases hrec : gptLoop oracle f (i + 1) with
          | none => rw [hrec] at h; exact absurd h (by simp)
          | some r2 =>
              obtain ⟨j, cs, hj, hjs⟩ := ih (i + 1) r2 hrec
              exact ⟨j, cs, by omega, hjs⟩

/-! ## Claim theorems -/

/-- C1: if every one of the configured maximum number of attempts yields a
gateway response with no extractable structured data, `Claude.send_message`
returns the explicit no-result outcome (`None`) rather than raising, logs
exactly one error, makes exactly the configured number of inference calls,
the maximum attempt count defaults to 5 (`Claude.MAX_RETRY`), and the
factory `get_model_from_str` installs the caller-supplied override on the
gateway client. -/
theorem claude_exhaustion_returns_none
    (retry : Nat) (oracle : Nat → String) (m1 m2 : Msg) (rest : List Msg)
    (h : ∀ i, i < retry → extractFromCompletion (oracle i) = .noMatch) :
    (claude_send_message retry (m1 :: m2 :: rest) oracle).res = .noResult ∧
    (claude_send_message retry (m1 :: m2 :: rest) oracle).errorLogs = 1 ∧
    (claude_send_message retry (m1 :: m2 :: rest) oracle).inferenceCalls = retry ∧
    Claude_MAX_RETRY = 5 ∧
    (∀ k : Nat, get_model_from_str "claude" k = some (ModelClient.claude k)) := by
  have hloop := claudeLoop_exhausted oracle retry 0 fun j hj => by
    simpa using h j hj
  refine ⟨?_, ?_, ?_, rfl, fun k => rfl⟩ <;>
    simp [claude_send_message, normalizeConv, hloop]

/-- Witness for C1 at a concrete run: three attempts, each answering a
completion with no JSON and no code fences. -/
theorem claude_exhaustion_returns_none_witness :
    (claude_send_message 3 [⟨"Human", "hi"⟩, ⟨"Human", "there"⟩]
        (fun _ => "no json here")).res = .noResult ∧
    (claude_send_message 3 [⟨"Human", "hi"⟩, ⟨"Human", "there"⟩]
        (fun _ => "no json here")).errorLogs = 1 := by
  have := claude_exhaustion_returns_none 3 (fun _ => "no json here")
    ⟨"Human", "hi"⟩ ⟨"Human", "there"⟩ [] (fun i _ => rfl)
  exact ⟨this.1, this.2.1⟩

/-- C2 counterexample: the claim says the caller-visible conversation has
the same length before and after `Claude.send_message`; on the
two-message conversation of the spec's own example the caller's list
object holds one message afterwards, not two. -/
theorem conversation_unchanged_counterexample :
    (convAfterSend [⟨"Human", "a\n"⟩, ⟨"Human", "c"⟩]).length = 1 ∧
    ([⟨"Human", "a\n"⟩, ⟨"Human", "c"⟩] : List Msg).length = 2 ∧
    convAfterSend [⟨"Human", "a\n"⟩, ⟨"Human", "c"⟩] = [⟨"Human", "a\nc"⟩] := by
  refine ⟨rfl, rfl, ?_⟩
  decide

/-- C2 amended: `Claude.send_message` mutates the caller's conversation in
place — afterwards the caller's list has lost its first message, and the
new first message carries the original second message's role with the
merged content; the messages after the second are unchanged. -/
theorem conversation_mutated_in_place (m1 m2 : Msg) (rest : List Msg) :
    convAfterSend (m1 :: m2 :: rest) =
      ⟨m2.role, pyRstrip m1.content ++ "\n" ++ m2.content⟩ :: rest ∧
    (convAfterSend (m1 :: m2 :: rest)).length + 1 = (m1 :: m2 :: rest).length := by
  exact ⟨rfl, by simp [convAfterSend]⟩

/-- C3: gateway normalization removes the first message and replaces the
second message's content with the first message's content stripped of
trailing whitespace, a newline, and the original second content; on
`[User "a\n", User "c"]` the first message becomes `"a\nc"`. -/
theorem gateway_normalization_merges_first_two :
    (∀ (m1 m2 : Msg) (rest : List Msg),
      normalizeConv (m1 :: m2 :: rest) =
        some (⟨m2.role, pyRstrip m1.content ++ "\n" ++ m2.content⟩ :: rest)) ∧
    normalizeConv [⟨"Human", "a\n"⟩, ⟨"Human", "c"⟩] = some [⟨"Human", "a\nc"⟩] := by
  refine ⟨fun m1 m2 rest => rfl, ?_⟩
  decide

/-- C4 counterexample: the claim says that after normalization the first
message has the User role tag "Human" regardless of the original roles;
normalizing `[Human "a", Assistant "b"]` leaves a first message tagged
"Assistant". -/
theorem normalized_first_role_counterexample :
    normalizeConv [⟨"Human", "a"⟩, ⟨"Assistant", "b"⟩] =
      some [⟨"Assistant", "a\nb"⟩] ∧
    ("Assistant" : String) ≠ "Human" := by
  exact ⟨by decide, by decide⟩

/-- C4 amended: after normalization the conversation used to build the
prompt is non-empty, and its first message carries the role of the
original second message — so it is tagged "Human" exactly when the
original second message was, not regardless of the original roles. -/
theorem normalized_first_role (m1 m2 : Msg) (rest : List Msg) :
    ∃ l, normalizeConv (m1 :: m2 :: rest) = some l ∧ l ≠ [] ∧
      (l.headD ⟨"", ""⟩).role = m2.role ∧
      ((l.headD ⟨"", ""⟩).role = "Human" ↔ m2.role = "Human") := by
  exact ⟨_, rfl, by simp, rfl, Iff.rfl⟩

/-- C5: JSON recovery round-trips — whenever `contains_valid_json` parses
the brace-delimited candidate to an object whose "responses" key holds a
sequence, the attempt returns one completion per element, each
re-serialized with `json.dumps`; an object without a "responses" key is
returned whole as a single serialized completion; and the concrete prose
around `{"responses": ["a","b"]}` yields exactly the serializations of
"a" and "b". -/
theorem json_recovery_roundtrip :
    (∀ (completion : String) (kvs : List (String × Json)) (l : List Json),
      contains_valid_json completion = some (Json.obj kvs) →
      lookupKey kvs "responses" = some (Json.arr l) →
      extractFromCompletion completion = .ok (l.map dumpJson)) ∧
    (∀ (completion : String) (kvs : List (String × Json)),
      contains_valid_json completion = some (Json.obj kvs) →
      lookupKey kvs "responses" = none →
      extractFromCompletion completion = .ok [dumpJson (Json.obj kvs)]) ∧
    extractFromCompletion "prose before \x7b\"responses\": [\"a\",\"b\"]\x7d prose after"
      = .ok ["\"a\"", "\"b\""] := by
  refine ⟨?_, ?_, rfl⟩
  · intro completion kvs l h1 h2
    simp [extractFromCompletion, h1, h2, pyIterElems]
  · intro completion kvs h1 h2
    simp [extractFromCompletion, h1, h2]

/-- Witness for C5 at concrete inputs: the embedded-in-prose example and a
parsed object without a "responses" key. -/
theorem json_recovery_roundtrip_witness :
    extractFromCompletion "text \x7b\"responses\": [\"x\"]\x7d tail" = .ok ["\"x\""] ∧
    extractFromCompletion "pre \x7b\"k\": 1\x7d post" = .ok ["\x7b\"k\": 1\x7d"] := by
  constructor
  · have := json_recovery_roundtrip.1 "text \x7b\"responses\": [\"x\"]\x7d tail"
      [("responses", Json.arr [Json.str "x"])] [Json.str "x"] rfl rfl
    rw [this]
    rfl
  · have := json_recovery_roundtrip.2.1 "pre \x7b\"k\": 1\x7d post"
      [("k", Json.num 1)] rfl rfl
    rw [this]
    rfl

/-- C6: the JSON-recovery extractor is total — when the input has no
opening brace or no closing brace, and likewise when the repaired
brace-delimited candidate fails to parse, `contains_valid_json` returns
the no-match value `none` instead of raising. -/
theorem contains_valid_json_no_match (s : String) :
    (('\x7b' ∉ s.toList ∨ '\x7d' ∉ s.toList) → contains_valid_json s = none) ∧
    (∀ a b : Nat, pyFind s '\x7b' = some a → pyRfind s '\x7d' = some b →
      jsonParse (replaceTripleQuoted (pySlice s a (b + 1))) = none →
      contains_valid_json s = none) := by
  constructor
  · intro h
    cases h with
    | inl h =>
        have hf : pyFind s '\x7b' = none := pyFindAux_eq_none _ _ h 0
        unfold contains_valid_json
        rw [hf]
    | inr h =>
        have hf : pyRfind s '\x7d' = none := pyRfindAux_eq_acc _ _ h 0 none
        unfold contains_valid_json
        rw [hf]
        try first
          | rfl
          | cases pyFind s '\x7b' <;> rfl
  · intro a b h1 h2 h3
    unfold contains_valid_json
    rw [h1, h2]
    exact h3

/-- Witness for C6: a brace-free input and an input whose candidate slice
is not valid JSON both yield `none`. -/
theorem contains_valid_json_no_match_witness :
    contains_valid_json "hello" = none ∧
    contains_valid_json "\x7boops\x7d" = none := by
  constructor
  · exact (contains_valid_json_no_match "hello").1 (Or.inl (by decide))
  · exact (contains_valid_json_no_match "\x7boops\x7d").2 0 5 rfl rfl rfl

/-- C7: on a raw text where JSON recovery reports no match, exactly two
fenced code blocks produce the single completion serializing
`{"snippet1": <first block trimmed>, "snippet2": <second block trimmed>}`,
and any other block count leaves the attempt with no match. -/
theorem code_block_recovery (completion : String)
    (h : contains_valid_json completion = none) :
    ((extract_code_blocks completion).length = 2 →
      extractFromCompletion completion =
        .ok [dumpJson (Json.obj
          [("snippet1", Json.str ((extract_code_blocks completion).getD 0 "")),
           ("snippet2", Json.str ((extract_code_blocks completion).getD 1 ""))])]) ∧
    ((extract_code_blocks completion).length ≠ 2 →
      extractFromCompletion completion = .noMatch) := by
  constructor
  · intro h2
    simp [extractFromCompletion, h, h2]
  · intro h2
    simp [extractFromCompletion, h, h2]

/-- Witness for C7: a text with exactly two fences (so a packaged snippet
pair) and a text with a single fence (no match). -/
theorem code_block_recovery_witness :
    extractFromCompletion "x``` a ```y``` b ```z" =
      .ok ["\x7b\"snippet1\": \"a\", \"snippet2\": \"b\"\x7d"] ∧
    extractFromCompletion "one ``` fence ``` only" = .noMatch := by
  constructor
  · have := (code_block_recovery "x``` a ```y``` b ```z" rfl).1 rfl
    rw [this]
    rfl
  · exact (code_block_recovery "one ``` fence ``` only" rfl).2 (by decide)

/-- C8: the direct provider's `while True` loop exits only on a successful
provider call; each rate-limit / timeout / generic-API failure is followed
by its fixed backoff (1 second for the first two classes, 5 for the
generic class) and a re-attempt, with no attempt ceiling — any finite
number of leading failures still reaches the first success. -/
theorem gpt_retry_until_success :
    (∀ (oracle : Nat → GPTOutcome) (k : Nat) (contents : List (Option String)),
      (∀ j, j < k → gptIsSuccess (oracle j) = false) →
      oracle k = .success contents →
      ∀ fuel, k < fuel →
        gptLoop oracle fuel 0 =
          some (chatgpt_extract contents,
                (List.range k).map fun j => sleepSecs (oracle j))) ∧
    (∀ (oracle : Nat → GPTOutcome) (fuel i : Nat) (r : List String × List Nat),
      gptLoop oracle fuel i = some r →
      ∃ j contents, i ≤ j ∧ oracle j = GPTOutcome.success contents) := by
  constructor
  · intro oracle k contents hfail hs fuel hf
    exact gptLoop_first_success k oracle contents fuel hfail hs hf
  · intro oracle fuel i r h
    exact gptLoop_success_of_some oracle fuel i r h

/-- Witness for C8: two rate-limit failures then a success — the loop
returns the success's completions after two 1-second backoffs. -/
theorem gpt_retry_until_success_witness :
    gptLoop (fun i => if i < 2 then GPTOutcome.rateLimit
                      else GPTOutcome.success [some "ok", none]) 5 0
      = some (["ok"], [1, 1]) := by
  have := gpt_retry_until_success.1
    (fun i => if i < 2 then GPTOutcome.rateLimit
              else GPTOutcome.success [some "ok", none])
    2 [some "ok", none]
    (fun j hj => by interval_cases j <;> rfl) rfl 5 (by omega)
  rw [this]
  rfl

/-- C9 counterexample: the claim says every empty completion is filtered
out; a response whose only choice has empty content yields `[""]`, which
contains an empty string. -/
theorem gpt_empty_completion_counterexample :
    chatgpt_extract [some "", some "x"] = ["", "x"] ∧
    ("" : String) ∈ chatgpt_extract [some "", some "x"] ∧
    ("" : String).length = 0 := by
  exact ⟨rfl, by decide, rfl⟩

/-- C9 amended: `ChatGPT.send_message` returns the candidate texts in the
order of the response's choices, filtering out exactly the missing
(`None`) contents; empty strings are retained. -/
theorem gpt_filters_only_missing (pre post : List (Option String)) (s : String) :
    chatgpt_extract (pre ++ some s :: post) =
      chatgpt_extract pre ++ s :: chatgpt_extract post ∧
    chatgpt_extract (pre ++ none :: post) =
      chatgpt_extract pre ++ chatgpt_extract post := by
  induction pre with
  | nil => exact ⟨rfl, rfl⟩
  | cons o os ih =>
      cases o with
      | some t => exact ⟨congrArg (List.cons t) ih.1, congrArg (List.cons t) ih.2⟩
      | none => exact ⟨ih.1, ih.2⟩

/-- C10: a conversation with fewer than two messages makes
`Claude.send_message` raise `IndexError` before building a payload or
issuing any provider call. -/
theorem claude_short_conversation_raises
    (conversation : List Msg) (oracle : Nat → String) (retry : Nat)
    (h : conversation.length < 2) :
    claude_send_message retry conversation oracle =
      ⟨.raised .indexError, 0, 0, none⟩ := by
  match conversation with
  | [] => rfl
  | [m] => rfl
  | a :: b :: t => simp at h; omega

/-- Witness for C10 at the empty and singleton conversations. -/
theorem claude_short_conversation_raises_witness :
    claude_send_message 5 [] (fun _ => "") = ⟨.raised .indexError, 0, 0, none⟩ ∧
    claude_send_message 5 [⟨"Human", "solo"⟩] (fun _ => "") =
      ⟨.raised .indexError, 0, 0, none⟩ := by
  exact ⟨claude_short_conversation_raises [] (fun _ => "") 5 (by decide),
         claude_short_conversation_raises [⟨"Human", "solo"⟩] (fun _ => "") 5 (by decide)⟩
